import Mathlib

/-!
Shallow embedding of `src/scrapling/api.py` (the Scrapling REST API gateway):
API-key auth guard, pydantic request schemas, option mappers ("kwargs"
builders), response normalizer, and the six fetch route handlers.

Python dicts whose keys are strings are modelled as ordered association
lists (`List (String × α)`); assignment `d[k] = v` is `dictSet`, which
overwrites in place when the key is present and appends otherwise,
matching the insertion-order semantics of Python dicts.  The `str()` of Python is modelled
as total (every object carries its textual representation); places where
the source can genuinely raise — header iteration, CSS/XPath evaluation,
`str()` on the body object, the engine call — are modelled explicitly with
`Option`/`Except`.
-/

namespace Scrapling

/-- A Python value as it appears in a kwargs map (kwargs are heterogeneous). -/
inductive PyAny where
  | pstr : String → PyAny
  | pint : Int → PyAny
  | pbool : Bool → PyAny
  | pnone : PyAny
  | pdict : List (String × PyAny) → PyAny
  | plist : List PyAny → PyAny

/-- Python dict assignment `d[k] = v` on a string-keyed dict modelled as an
ordered association list: overwrite the (unique) occurrence of `k` in
place if present, else append at the end, matching the insertion-order
semantics of Python dicts. -/
def dictSet {α : Type} (d : List (String × α)) (k : String) (v : α) : List (String × α) :=
  match d with
  | [] => [(k, v)]
  | p :: t => if p.1 == k then (k, v) :: t else p :: dictSet t k v

/-- `k in d` for a string-keyed dict. -/
def hasKey {α : Type} (d : List (String × α)) (k : String) : Bool :=
  d.any (fun p => p.1 == k)

/-- `d.get(k)` for a string-keyed dict. -/
def dictFind {α : Type} (d : List (String × α)) (k : String) : Option α :=
  (d.find? (fun p => p.1 == k)).map (·.2)

/-- `d.update(e)`: Python dict update, inserting the pairs of `e` in order. -/
def dictUpdate {α : Type} (d e : List (String × α)) : List (String × α) :=
  e.foldl (fun acc p => dictSet acc p.1 p.2) d

/-- Python truthiness of an optional string: `None` and `""` are falsy. -/
def truthyStr (o : Option String) : Bool :=
  match o with
  | some s => !(s == "")
  | none => false

/-- Python truthiness of an optional dict: `None` and the empty dict are falsy. -/
def truthyDict {α : Type} (o : Option (List (String × α))) : Bool :=
  match o with
  | some d => !d.isEmpty
  | none => false

/-- Wrap an optional string→string dict as the `PyAny` the source forwards. -/
def anyOfStrDict (o : Option (List (String × String))) : PyAny :=
  match o with
  | some d => .pdict (d.map fun p => (p.1, .pstr p.2))
  | none => .pnone

def anyOfStr (o : Option String) : PyAny :=
  match o with
  | some s => .pstr s
  | none => .pnone

def anyOfInt (o : Option Int) : PyAny :=
  match o with
  | some i => .pint i
  | none => .pnone

def anyOfBool (o : Option Bool) : PyAny :=
  match o with
  | some b => .pbool b
  | none => .pnone

/-! ### Auth guard (`_verify_api_key`) -/

/-- Outcome of the auth dependency: pass, or an `HTTPException(status, detail)`. -/
inductive AuthOutcome where
  | pass : AuthOutcome
  | reject : Nat → String → AuthOutcome
deriving DecidableEq

/-- `secrets.compare_digest` on two strings: constant-time equality.  The
timing behaviour is not modelled; the result is string equality. -/
def compare_digest (a b : String) : Bool := a == b

/-- `_verify_api_key`: `expected` is `os.environ.get("SCRAPLING_API_KEY")`,
`api_key` is the optional `X-API-Key` header value. -/
def _verify_api_key (expected : Option String) (api_key : Option String) : AuthOutcome :=
  match expected with
  | none => .pass
  | some exp =>
    match api_key with
    | none => .reject 401 "Missing API key. Provide it via the X-API-Key header."
    | some k => if compare_digest k exp then .pass else .reject 403 "Invalid API key."

/-! ### Request schemas (pydantic models, with their declared defaults) -/

/-- `FetcherGetRequest` with pydantic defaults. -/
structure FetcherGetRequest where
  url : String
  headers : Option (List (String × String)) := none
  cookies : Option (List (String × String)) := none
  params : Option (List (String × String)) := none
  proxy : Option String := none
  timeout : Option Int := some 30
  follow_redirects : Option Bool := some true
  verify : Option Bool := some true
  impersonate : Option String := none
  stealthy_headers : Option Bool := some true
  css_selector : Option String := none
  xpath_selector : Option String := none

/-- `FetcherDataRequest` extends `FetcherGetRequest`. -/
structure FetcherDataRequest extends FetcherGetRequest where
  data : Option (List (String × String)) := none
  json_data : Option PyAny := none

/-- `DynamicFetchRequest` with pydantic defaults. -/
structure DynamicFetchRequest where
  url : String
  headless : Option Bool := some true
  disable_resources : Option Bool := some false
  network_idle : Option Bool := some false
  load_dom : Option Bool := some true
  timeout : Option Int := some 30000
  wait : Option Int := none
  wait_selector : Option String := none
  wait_selector_state : Option String := some "attached"
  locale : Option String := none
  real_chrome : Option Bool := some false
  cdp_url : Option String := none
  proxy : Option String := none
  extra_headers : Option (List (String × String)) := none
  useragent : Option String := none
  google_search : Option Bool := some true
  css_selector : Option String := none
  xpath_selector : Option String := none

/-- `StealthyFetchRequest` extends `DynamicFetchRequest`. -/
structure StealthyFetchRequest extends DynamicFetchRequest where
  allow_webgl : Option Bool := some true
  hide_canvas : Option Bool := some false
  block_webrtc : Option Bool := some false
  solve_cloudflare : Option Bool := some false

/-! ### Option mappers -/

/-- `_build_fetcher_kwargs`: kwargs for `Fetcher` from the request model.
`if req.x:` guards are Python truthiness; `is not None` guards are `isSome`. -/
def _build_fetcher_kwargs (req : FetcherGetRequest) : List (String × PyAny) :=
  let kwargs : List (String × PyAny) := []
  let kwargs := if truthyDict req.headers then dictSet kwargs "headers" (anyOfStrDict req.headers) else kwargs
  let kwargs := if truthyDict req.cookies then dictSet kwargs "cookies" (anyOfStrDict req.cookies) else kwargs
  let kwargs := if truthyDict req.params then dictSet kwargs "params" (anyOfStrDict req.params) else kwargs
  let kwargs := if truthyStr req.proxy then dictSet kwargs "proxy" (anyOfStr req.proxy) else kwargs
  let kwargs := if req.timeout.isSome then dictSet kwargs "timeout" (anyOfInt req.timeout) else kwargs
  let kwargs := if req.follow_redirects.isSome then dictSet kwargs "follow_redirects" (anyOfBool req.follow_redirects) else kwargs
  let kwargs := if req.verify.isSome then dictSet kwargs "verify" (anyOfBool req.verify) else kwargs
  let kwargs := if truthyStr req.impersonate then dictSet kwargs "impersonate" (anyOfStr req.impersonate) else kwargs
  let kwargs := if req.stealthy_headers.isSome then dictSet kwargs "stealthy_headers" (anyOfBool req.stealthy_headers) else kwargs
  kwargs

/-- `_build_dynamic_kwargs`: kwargs for `DynamicFetcher`.  The initial dict
literal always carries the seven gateway-defaulted entries. -/
def _build_dynamic_kwargs (req : DynamicFetchRequest) : List (String × PyAny) :=
  let kwargs : List (String × PyAny) := [
    ("headless", anyOfBool req.headless),
    ("disable_resources", anyOfBool req.disable_resources),
    ("network_idle", anyOfBool req.network_idle),
    ("load_dom", anyOfBool req.load_dom),
    ("timeout", anyOfInt req.timeout),
    ("real_chrome", anyOfBool req.real_chrome),
    ("google_search", anyOfBool req.google_search)]
  let kwargs := if req.wait.isSome then dictSet kwargs "wait" (anyOfInt req.wait) else kwargs
  let kwargs := if truthyStr req.wait_selector then dictSet kwargs "wait_selector" (anyOfStr req.wait_selector) else kwargs
  let kwargs := if truthyStr req.wait_selector_state then dictSet kwargs "wait_selector_state" (anyOfStr req.wait_selector_state) else kwargs
  let kwargs := if truthyStr req.locale then dictSet kwargs "locale" (anyOfStr req.locale) else kwargs
  let kwargs := if truthyStr req.cdp_url then dictSet kwargs "cdp_url" (anyOfStr req.cdp_url) else kwargs
  let kwargs := if truthyStr req.proxy then dictSet kwargs "proxy" (anyOfStr req.proxy) else kwargs
  let kwargs := if truthyDict req.extra_headers then dictSet kwargs "extra_headers" (anyOfStrDict req.extra_headers) else kwargs
  let kwargs := if truthyStr req.useragent then dictSet kwargs "useragent" (anyOfStr req.useragent) else kwargs
  kwargs

/-- `_build_stealthy_kwargs`: the dynamic kwargs plus four unconditional
assignments. -/
def _build_stealthy_kwargs (req : StealthyFetchRequest) : List (String × PyAny) :=
  let kwargs := _build_dynamic_kwargs req.toDynamicFetchRequest
  let kwargs := dictSet kwargs "allow_webgl" (anyOfBool req.allow_webgl)
  let kwargs := dictSet kwargs "hide_canvas" (anyOfBool req.hide_canvas)
  let kwargs := dictSet kwargs "block_webrtc" (anyOfBool req.block_webrtc)
  let kwargs := dictSet kwargs "solve_cloudflare" (anyOfBool req.solve_cloudflare)
  kwargs

/-- The kwargs construction that `fetcher_post` and `fetcher_put` both inline:
the fetcher kwargs, then `data` if truthy, then `json` if not `None`. -/
def _body_kwargs (req : FetcherDataRequest) : List (String × PyAny) :=
  let kwargs := _build_fetcher_kwargs req.toFetcherGetRequest
  let kwargs := if truthyDict req.data then dictSet kwargs "data" (anyOfStrDict req.data) else kwargs
  let kwargs := if req.json_data.isSome then dictSet kwargs "json" (req.json_data.getD .pnone) else kwargs
  kwargs

/-! ### Engine response shapes consumed by `_response_to_dict` -/

/-- The `response.headers` attribute as the normalizer distinguishes it:
`None`, a real `dict`, or any other object.  For the other-object case,
`truthy` is its Python truthiness and `items` is what iterating
`.items()` yields — `none` means the iteration raises. -/
inductive PyHeaders where
  | pnone : PyHeaders
  | pdict : List (String × String) → PyHeaders
  | pobj : Bool → Option (List (String × String)) → PyHeaders

/-- One element of a `response.cookies` list: a dict of entries, or any
non-dict object (which the loop skips silently). -/
inductive PyCookieItem where
  | cdict : List (String × String) → PyCookieItem
  | cother : PyCookieItem

/-- The `response.cookies` attribute: `None`, a dict (returned as-is), a
list/tuple of cookie records, or any other object (`truthy` gives its
Python truthiness; no branch matches it, so it yields an empty map). -/
inductive PyCookies where
  | pnone : PyCookies
  | pdict : List (String × String) → PyCookies
  | plist : List PyCookieItem → PyCookies
  | pobj : Bool → PyCookies

/-- The `response.body` attribute: bytes, a string, or any other object.
For the other-object case, `strRepr` is what `str(body)` returns —
`none` means `str(body)` raises. -/
inductive PyBody where
  | pbytes : List Nat → PyBody
  | pstr : String → PyBody
  | pobj : Option String → PyBody

/-- An element yielded by a CSS/XPath query: `html` is its `.html`
attribute when `hasattr(el, "html")`, and `strRepr` is `str(el)`. -/
structure PyElement where
  html : Option String
  strRepr : String

/-- A Scrapling engine response as consumed by the gateway.  `css` and
`xpath` run a selector; `.error e` models the call raising an exception
whose `str()` is `e`.  `reprStr` is `str(response)`. -/
structure EngResponse where
  url : String
  status : Int
  reason : String
  headers : PyHeaders
  cookies : PyCookies
  body : PyBody
  reprStr : String
  css : String → Except String (List PyElement)
  xpath : String → Except String (List PyElement)

/-- The fixed JSON shape `_response_to_dict` returns. -/
structure RespDict where
  url : String
  status : Int
  reason : String
  headers : List (String × String)
  cookies : List (String × String)
  body : String
  selected_content : Option (List String)

/-- `\x7bstr(k): str(v) for k, v in ...\x7d`: build a dict from iterated pairs,
later duplicates overwriting earlier ones. -/
def strMapOfPairs (ps : List (String × String)) : List (String × String) :=
  ps.foldl (fun acc p => dictSet acc p.1 p.2) []

/-- The headers block of `_response_to_dict`: truthy dict → converted copy;
truthy non-dict → converted items, or empty map if iteration raises;
falsy/`None` → empty map. -/
def headersOf (h : PyHeaders) : List (String × String) :=
  match h with
  | .pnone => []
  | .pdict ps => if ps.isEmpty then [] else strMapOfPairs ps
  | .pobj truthy items =>
    if truthy then
      match items with
      | some ps => strMapOfPairs ps
      | none => []
    else []

/-- One iteration of the cookies loop: a dict with both `name` and `value`
keys contributes that pair; any other dict is merged whole; a non-dict
item is skipped. -/
def cookieStep (acc : List (String × String)) (c : PyCookieItem) : List (String × String) :=
  match c with
  | .cdict es =>
    if hasKey es "name" && hasKey es "value" then
      dictSet acc ((dictFind es "name").getD "") ((dictFind es "value").getD "")
    else dictUpdate acc es
  | .cother => acc

/-- The cookies block of `_response_to_dict`. -/
def cookiesOf (c : PyCookies) : List (String × String) :=
  match c with
  | .pnone => []
  | .pdict ps => if ps.isEmpty then [] else ps
  | .plist items => if items.isEmpty then [] else items.foldl cookieStep []
  | .pobj _ => []

/-- Is `b` a UTF-8 continuation byte (`0x80..0xBF`)? -/
def isCont (b : Nat) : Bool := 128 ≤ b && b < 192

/-- Is `b1` a valid second byte after the three-byte lead `b`
(`E0` requires `A0..BF`, `ED` requires `80..9F`, otherwise `80..BF`)? -/
def validSecond3 (b b1 : Nat) : Bool :=
  isCont b1 && !(b == 224 && b1 < 160) && !(b == 237 && 160 ≤ b1)

/-- Is `b1` a valid second byte after the four-byte lead `b`
(`F0` requires `90..BF`, `F4` requires `80..8F`, otherwise `80..BF`)? -/
def validSecond4 (b b1 : Nat) : Bool :=
  isCont b1 && !(b == 240 && b1 < 144) && !(b == 244 && 144 ≤ b1)

/-- UTF-8 decoding loop with fuel (each step consumes at least one byte,
so fuel equal to the byte count, as `decodeUtf8Replace` supplies, is
always sufficient).  On an error, one U+FFFD replaces the maximal subpart
of the ill-formed sequence — the longest prefix that is a prefix of some
well-formed sequence — and decoding resumes at the first byte after it,
as CPython does for `errors="replace"`. -/
def decodeUtf8Aux (fuel : Nat) (l : List Nat) : List Char :=
  match fuel, l with
  | _, [] => []
  | 0, _ => []
  | fuel + 1, b :: rest =>
    if b < 128 then Char.ofNat b :: decodeUtf8Aux fuel rest
    else if b < 194 then (Char.ofNat 65533) :: decodeUtf8Aux fuel rest
    else if b < 224 then
      match rest with
      | b1 :: r =>
        if isCont b1 then Char.ofNat ((b % 32) * 64 + b1 % 64) :: decodeUtf8Aux fuel r
        else (Char.ofNat 65533) :: decodeUtf8Aux fuel rest
      | [] => [Char.ofNat 65533]
    else if b < 240 then
      match rest with
      | [] => [Char.ofNat 65533]
      | b1 :: r =>
        if validSecond3 b b1 then
          match r with
          | [] => [Char.ofNat 65533]
          | b2 :: r2 =>
            if isCont b2 then
              Char.ofNat ((b % 16) * 4096 + (b1 % 64) * 64 + b2 % 64) :: decodeUtf8Aux fuel r2
            else (Char.ofNat 65533) :: decodeUtf8Aux fuel r
        else (Char.ofNat 65533) :: decodeUtf8Aux fuel rest
    else if b < 245 then
      match rest with
      | [] => [Char.ofNat 65533]
      | b1 :: r =>
        if validSecond4 b b1 then
          match r with
          | [] => [Char.ofNat 65533]
          | b2 :: r2 =>
            if isCont b2 then
              match r2 with
              | [] => [Char.ofNat 65533]
              | b3 :: r3 =>
                if isCont b3 then
                  Char.ofNat ((b % 8) * 262144 + (b1 % 64) * 4096 + (b2 % 64) * 64 + b3 % 64) ::
                    decodeUtf8Aux fuel r3
                else (Char.ofNat 65533) :: decodeUtf8Aux fuel r2
            else (Char.ofNat 65533) :: decodeUtf8Aux fuel r
        else (Char.ofNat 65533) :: decodeUtf8Aux fuel rest
    else (Char.ofNat 65533) :: decodeUtf8Aux fuel rest

/-- `bytes.decode("utf-8", errors="replace")`: decode, substituting U+FFFD
for invalid sequences. -/
def decodeUtf8Replace (l : List Nat) : List Char :=
  decodeUtf8Aux l.length l

/-- The body block of `_response_to_dict`: bytes decode with replacement;
non-bytes go through `str`; if that raises, fall back to `str(response)`. -/
def bodyOf (b : PyBody) (respRepr : String) : String :=
  match b with
  | .pbytes data => String.mk (decodeUtf8Replace data)
  | .pstr s => s
  | .pobj strRepr =>
    match strRepr with
    | some s => s
    | none => respRepr

/-- `el.html if hasattr(el, "html") else str(el)`. -/
def elemStr (el : PyElement) : String :=
  match el.html with
  | some h => h
  | none => el.strRepr

/-- The selected-content block of `_response_to_dict`: a truthy CSS selector
is run first; otherwise a truthy XPath selector; a raising selector yields
the single-element error list. -/
def selectedOf (resp : EngResponse) (css_selector xpath_selector : Option String) : Option (List String) :=
  if truthyStr css_selector then
    match resp.css (css_selector.getD "") with
    | .ok els => some (els.map elemStr)
    | .error e => some ["CSS selector error: " ++ e]
  else if truthyStr xpath_selector then
    match resp.xpath (xpath_selector.getD "") with
    | .ok els => some (els.map elemStr)
    | .error e => some ["XPath selector error: " ++ e]
  else none

/-- `_response_to_dict`: normalize an engine response into the fixed shape. -/
def _response_to_dict (response : EngResponse) (css_selector xpath_selector : Option String) : RespDict :=
  { url := response.url
    status := response.status
    reason := response.reason
    headers := headersOf response.headers
    cookies := cookiesOf response.cookies
    body := bodyOf response.body response.reprStr
    selected_content := selectedOf response css_selector xpath_selector }

/-! ### Route handlers -/

/-- What a protected route returns after validation: a 200 JSON body, or an
`HTTPException(status, detail)`. -/
inductive RouteResult where
  | ok : RespDict → RouteResult
  | httpError : Nat → String → RouteResult

/-- An engine operation: URL and kwargs to a response, or a raised
exception whose `str()` is the error string. -/
def Engine : Type := String → List (String × PyAny) → Except String EngResponse

/-- The `/api/fetcher/get` handler body (post-auth, post-validation),
parameterized by `Fetcher.get`. -/
def fetcher_get (engine_get : Engine) (req : FetcherGetRequest) : RouteResult :=
  let kwargs := _build_fetcher_kwargs req
  match engine_get req.url kwargs with
  | .error e => .httpError 502 e
  | .ok response => .ok (_response_to_dict response req.css_selector req.xpath_selector)

/-- The `/api/fetcher/post` handler body, parameterized by `Fetcher.post`. -/
def fetcher_post (engine_post : Engine) (req : FetcherDataRequest) : RouteResult :=
  let kwargs := _body_kwargs req
  match engine_post req.url kwargs with
  | .error e => .httpError 502 e
  | .ok response => .ok (_response_to_dict response req.css_selector req.xpath_selector)

/-- The `/api/fetcher/put` handler body, parameterized by `Fetcher.put`. -/
def fetcher_put (engine_put : Engine) (req : FetcherDataRequest) : RouteResult :=
  let kwargs := _body_kwargs req
  match engine_put req.url kwargs with
  | .error e => .httpError 502 e
  | .ok response => .ok (_response_to_dict response req.css_selector req.xpath_selector)

/-- The `/api/fetcher/delete` handler body, parameterized by `Fetcher.delete`. -/
def fetcher_delete (engine_delete : Engine) (req : FetcherGetRequest) : RouteResult :=
  let kwargs := _build_fetcher_kwargs req
  match engine_delete req.url kwargs with
  | .error e => .httpError 502 e
  | .ok response => .ok (_response_to_dict response req.css_selector req.xpath_selector)

/-- The `/api/dynamic/fetch` handler body, parameterized by
`DynamicFetcher.fetch`. -/
def dynamic_fetch (engine_fetch : Engine) (req : DynamicFetchRequest) : RouteResult :=
  let kwargs := _build_dynamic_kwargs req
  match engine_fetch req.url kwargs with
  | .error e => .httpError 502 e
  | .ok response => .ok (_response_to_dict response req.css_selector req.xpath_selector)

/-- The `/api/stealthy/fetch` handler body, parameterized by
`StealthyFetcher.fetch`. -/
def stealthy_fetch (engine_fetch : Engine) (req : StealthyFetchRequest) : RouteResult :=
  let kwargs := _build_stealthy_kwargs req
  match engine_fetch req.url kwargs with
  | .error e => .httpError 502 e
  | .ok response => .ok (_response_to_dict response req.css_selector req.xpath_selector)

/-! ### Association-list dictionary lemmas -/

@[simp]
theorem hasKey_nil {α : Type} (k : String) : hasKey ([] : List (String × α)) k = false := rfl

@[simp]
theorem dictFind_nil {α : Type} (k : String) : dictFind ([] : List (String × α)) k = none := rfl

@[simp]
theorem hasKey_cons {α : Type} (p : String × α) (d : List (String × α)) (k : String) :
    hasKey (p :: d) k = (p.1 == k || hasKey d k) := by
  simp [hasKey]

@[simp]
theorem hasKey_append {α : Type} (d e : List (String × α)) (k : String) :
    hasKey (d ++ e) k = (hasKey d k || hasKey e k) := by
  simp [hasKey]

@[simp]
theorem dictFind_cons {α : Type} (p : String × α) (d : List (String × α)) (k : String) :
    dictFind (p :: d) k = if p.1 == k then some p.2 else dictFind d k := by
  by_cases h : p.1 == k <;> simp [dictFind, List.find?_cons, h]

@[simp]
theorem hasKey_dictSet {α : Type} (d : List (String × α)) (k k' : String) (v : α) :
    hasKey (dictSet d k v) k' = (k' == k || hasKey d k') := by
  induction d with
  | nil =>
    by_cases hk : k = k'
    · simp [dictSet, hk]
    · simp [dictSet, hk, Ne.symm hk]
  | cons p t ih =>
    by_cases h : p.1 == k
    · have hk : p.1 = k := by simpa using h
      by_cases hkk : k = k'
      · simp [dictSet, h, hk, hkk]
      · simp [dictSet, h, hk, hkk, Ne.symm hkk]
    · simp [dictSet, h, ih, Bool.or_left_comm]

@[simp]
theorem dictFind_dictSet {α : Type} (d : List (String × α)) (k k' : String) (v : α) :
    dictFind (dictSet d k v) k' = if k' = k then some v else dictFind d k' := by
  induction d with
  | nil =>
    by_cases hk : k' = k
    · simp [dictSet, hk]
    · simp [dictSet, hk, Ne.symm hk]
  | cons p t ih =>
    by_cases h : p.1 == k
    · have hk : p.1 = k := by simpa using h
      by_cases hkk : k' = k
      · simp [dictSet, h, hk, hkk]
      · simp [dictSet, h, hk, hkk, Ne.symm hkk]
    · by_cases h' : p.1 == k'
      · have hk' : p.1 = k' := by simpa using h'
        have hne : ¬k' = k := by
          intro hkk; rw [hkk] at hk'; exact h (by simpa using hk')
        simp [dictSet, h, h', hne]
      · simp [dictSet, h, h', ih]

theorem dictSet_eq_append {α : Type} (d : List (String × α)) (k : String) (v : α)
    (h : hasKey d k = false) : dictSet d k v = d ++ [(k, v)] := by
  induction d with
  | nil => rfl
  | cons p t ih =>
    simp only [hasKey_cons, Bool.or_eq_false_iff] at h
    simp [dictSet, h.1, ih h.2]

end Scrapling

namespace Scrapling

/-! ### Concrete fixtures used by witnesses -/

/-- A concrete engine response whose selector queries always raise. -/
def errResp : EngResponse :=
  { url := "https://example.com"
    status := 200
    reason := "OK"
    headers := .pnone
    cookies := .pnone
    body := .pstr "<p>hi</p>"
    reprStr := "<Response>"
    css := fun _ => .error "boom"
    xpath := fun _ => .error "boom" }

/-! ### C1: auth guard three-way behaviour -/

/-- C1: with no configured key the guard always passes; with a key
configured, a missing header is rejected 401, a mismatched header is
rejected 403, and an exact match passes. -/
theorem auth_guard_three_way :
    (∀ h : Option String, _verify_api_key none h = .pass) ∧
    (∀ k : String, _verify_api_key (some k) none =
      .reject 401 "Missing API key. Provide it via the X-API-Key header.") ∧
    (∀ k h : String, h ≠ k → _verify_api_key (some k) (some h) =
      .reject 403 "Invalid API key.") ∧
    (∀ k : String, _verify_api_key (some k) (some k) = .pass) := by
  refine ⟨fun h => rfl, fun k => rfl, fun k h hne => ?_, fun k => ?_⟩
  · simp [_verify_api_key, compare_digest, hne]
  · simp [_verify_api_key, compare_digest]

/-- Witness for C1 at concrete keys and headers. -/
theorem auth_guard_three_way_witness :
    _verify_api_key none (some "anything") = .pass ∧
    _verify_api_key (some "sekret") none =
      .reject 401 "Missing API key. Provide it via the X-API-Key header." ∧
    _verify_api_key (some "sekret") (some "wrong") = .reject 403 "Invalid API key." ∧
    _verify_api_key (some "sekret") (some "sekret") = .pass :=
  ⟨auth_guard_three_way.1 _, auth_guard_three_way.2.1 _,
   auth_guard_three_way.2.2.1 "sekret" "wrong" (by decide),
   auth_guard_three_way.2.2.2 _⟩

/-! ### C2: SimpleFetch omission law -/

/-- C2 counterexample: a `FetcherGetRequest` that sets only `url` — every
other field is left unset, so `timeout`, `follow_redirects`, `verify` and
`stealthy_headers` carry their schema defaults (`30`/`true`/`true`/`true`),
which are not `None` — is mapped to an option map that DOES contain the
keys `timeout`, `follow_redirects`, `verify` and `stealthy_headers`,
refuting the claim that a field left unset never appears as a key and that
the four gateway-defaulted fields are omitted at their defaults. -/
theorem fetcher_kwargs_defaults_counterexample :
    _build_fetcher_kwargs { url := "https://example.com" } =
      [("timeout", .pint 30), ("follow_redirects", .pbool true),
       ("verify", .pbool true), ("stealthy_headers", .pbool true)] := rfl

/-- C2 amended: the option map contains `headers`/`cookies`/`params` only
when supplied non-null and non-empty, `proxy`/`impersonate` only when
supplied non-null and non-empty, while `timeout`, `follow_redirects`,
`verify` and `stealthy_headers` appear whenever they are non-`None` —
including when left unset, since their schema defaults are non-`None` —
and are omitted only when the request sets them to `null` explicitly. -/
theorem fetcher_kwargs_key_law :
    ∀ req : FetcherGetRequest,
      hasKey (_build_fetcher_kwargs req) "headers" = truthyDict req.headers ∧
      hasKey (_build_fetcher_kwargs req) "cookies" = truthyDict req.cookies ∧
      hasKey (_build_fetcher_kwargs req) "params" = truthyDict req.params ∧
      hasKey (_build_fetcher_kwargs req) "proxy" = truthyStr req.proxy ∧
      hasKey (_build_fetcher_kwargs req) "impersonate" = truthyStr req.impersonate ∧
      hasKey (_build_fetcher_kwargs req) "timeout" = req.timeout.isSome ∧
      hasKey (_build_fetcher_kwargs req) "follow_redirects" = req.follow_redirects.isSome ∧
      hasKey (_build_fetcher_kwargs req) "verify" = req.verify.isSome ∧
      hasKey (_build_fetcher_kwargs req) "stealthy_headers" = req.stealthy_headers.isSome := by
  intro req
  refine ⟨?_, ?_, ?_, ?_, ?_, ?_, ?_, ?_, ?_⟩
  · simp [_build_fetcher_kwargs, apply_ite (fun d => hasKey d "headers")]
  · simp [_build_fetcher_kwargs, apply_ite (fun d => hasKey d "cookies")]
  · simp [_build_fetcher_kwargs, apply_ite (fun d => hasKey d "params")]
  · simp [_build_fetcher_kwargs, apply_ite (fun d => hasKey d "proxy")]
  · simp [_build_fetcher_kwargs, apply_ite (fun d => hasKey d "impersonate")]
  · simp [_build_fetcher_kwargs, apply_ite (fun d => hasKey d "timeout")]
  · simp [_build_fetcher_kwargs, apply_ite (fun d => hasKey d "follow_redirects")]
  · simp [_build_fetcher_kwargs, apply_ite (fun d => hasKey d "verify")]
  · simp [_build_fetcher_kwargs, apply_ite (fun d => hasKey d "stealthy_headers")]

/-! ### C5: browser-fetch always-forwarded entries -/

/-- C5: the dynamic option map always carries `headless`,
`disable_resources`, `network_idle`, `load_dom`, `timeout`, `real_chrome`
and `google_search`, bound to exactly the values in the request model — whose
defaults are fixed by the gateway schema — for every request. -/
theorem dynamic_kwargs_always_forwarded :
    ∀ req : DynamicFetchRequest,
      dictFind (_build_dynamic_kwargs req) "headless" = some (anyOfBool req.headless) ∧
      dictFind (_build_dynamic_kwargs req) "disable_resources" = some (anyOfBool req.disable_resources) ∧
      dictFind (_build_dynamic_kwargs req) "network_idle" = some (anyOfBool req.network_idle) ∧
      dictFind (_build_dynamic_kwargs req) "load_dom" = some (anyOfBool req.load_dom) ∧
      dictFind (_build_dynamic_kwargs req) "timeout" = some (anyOfInt req.timeout) ∧
      dictFind (_build_dynamic_kwargs req) "real_chrome" = some (anyOfBool req.real_chrome) ∧
      dictFind (_build_dynamic_kwargs req) "google_search" = some (anyOfBool req.google_search) := by
  intro req
  refine ⟨?_, ?_, ?_, ?_, ?_, ?_, ?_⟩
  · simp [_build_dynamic_kwargs, apply_ite (fun d => dictFind d "headless")]
  · simp [_build_dynamic_kwargs, apply_ite (fun d => dictFind d "disable_resources")]
  · simp [_build_dynamic_kwargs, apply_ite (fun d => dictFind d "network_idle")]
  · simp [_build_dynamic_kwargs, apply_ite (fun d => dictFind d "load_dom")]
  · simp [_build_dynamic_kwargs, apply_ite (fun d => dictFind d "timeout")]
  · simp [_build_dynamic_kwargs, apply_ite (fun d => dictFind d "real_chrome")]
  · simp [_build_dynamic_kwargs, apply_ite (fun d => dictFind d "google_search")]

/-! ### C8: stealthy mapper composes the dynamic mapper -/

/-- C8: the stealthy option map is exactly the dynamic option map for the
same request, extended unconditionally with `allow_webgl`, `hide_canvas`,
`block_webrtc` and `solve_cloudflare`. -/
theorem stealthy_kwargs_composition :
    ∀ req : StealthyFetchRequest,
      _build_stealthy_kwargs req =
        _build_dynamic_kwargs req.toDynamicFetchRequest ++
          [("allow_webgl", anyOfBool req.allow_webgl),
           ("hide_canvas", anyOfBool req.hide_canvas),
           ("block_webrtc", anyOfBool req.block_webrtc),
           ("solve_cloudflare", anyOfBool req.solve_cloudflare)] := by
  intro req
  have h1 : hasKey (_build_dynamic_kwargs req.toDynamicFetchRequest) "allow_webgl" = false := by
    simp [_build_dynamic_kwargs, apply_ite (fun d => hasKey d "allow_webgl")]
  have h2 : hasKey (_build_dynamic_kwargs req.toDynamicFetchRequest) "hide_canvas" = false := by
    simp [_build_dynamic_kwargs, apply_ite (fun d => hasKey d "hide_canvas")]
  have h3 : hasKey (_build_dynamic_kwargs req.toDynamicFetchRequest) "block_webrtc" = false := by
    simp [_build_dynamic_kwargs, apply_ite (fun d => hasKey d "block_webrtc")]
  have h4 : hasKey (_build_dynamic_kwargs req.toDynamicFetchRequest) "solve_cloudflare" = false := by
    simp [_build_dynamic_kwargs, apply_ite (fun d => hasKey d "solve_cloudflare")]
  simp only [_build_stealthy_kwargs]
  rw [dictSet_eq_append _ _ _ h1,
      dictSet_eq_append _ _ _ (by simp [h1, h2, h3, h4]),
      dictSet_eq_append _ _ _ (by simp [h1, h2, h3, h4]),
      dictSet_eq_append _ _ _ (by simp [h1, h2, h3, h4])]
  simp

/-! ### C9: BodyFetch payload handling -/

/-- C9 counterexample: a request carrying both a form-data map and a JSON
payload maps to options that contain BOTH `data` (the form-data,
unchanged) and `json` (the payload) — the mapper applies no precedence
between them, refuting the claim that the JSON payload takes precedence
over the form-data at mapping time. -/
theorem body_kwargs_counterexample :
    _body_kwargs { url := "https://example.com", data := some [("a", "b")],
                   json_data := some (.pstr "x") } =
      [("timeout", .pint 30), ("follow_redirects", .pbool true),
       ("verify", .pbool true), ("stealthy_headers", .pbool true),
       ("data", .pdict [("a", .pstr "b")]), ("json", .pstr "x")] := rfl

/-- C9 amended: when both the form-data map and the JSON payload are
present, the mapper forwards both, under the distinct engine options
`data` and `json`, with the form-data unchanged; no precedence between
them is applied at mapping time (any precedence belongs to the engine). -/
theorem body_kwargs_both_forwarded :
    ∀ req : FetcherDataRequest,
      dictFind (_body_kwargs req) "json" = req.json_data ∧
      dictFind (_body_kwargs req) "data" =
        (if truthyDict req.data then some (anyOfStrDict req.data) else none) := by
  intro req
  have hbase : ∀ k, k = "data" ∨ k = "json" →
      dictFind (_build_fetcher_kwargs req.toFetcherGetRequest) k = none := by
    rintro k (rfl | rfl)
    · simp [_build_fetcher_kwargs, apply_ite (fun d => dictFind d "data")]
    · simp [_build_fetcher_kwargs, apply_ite (fun d => dictFind d "json")]
  constructor
  · rcases hj : req.json_data with _ | j
    · simp [_body_kwargs, hj, apply_ite (fun d => dictFind d "json"),
        hbase "json" (Or.inr rfl)]
    · simp [_body_kwargs, hj, apply_ite (fun d => dictFind d "json")]
  · rcases hj : req.json_data with _ | j <;>
      simp [_body_kwargs, hj, apply_ite (fun d => dictFind d "data"),
        hbase "data" (Or.inl rfl)]

/-! ### C3: normalizer total-safety -/

/-- C3: for an engine response whose headers object raises on iteration
(any truthiness), whose cookies have an unrecognized shape, and whose body
is neither bytes nor a string, the normalizer — total by construction over
the explicitly modelled raising operations — produces empty headers, empty
cookies, and a string body (`str(body)` when it succeeds, else
`str(response)`), for any selectors. -/
theorem normalizer_total_safety :
    ∀ (url reason reprStr : String) (status : Int) (ht hc : Bool) (srep : Option String)
      (cssF xpathF : String → Except String (List PyElement)) (cs xs : Option String),
      (_response_to_dict
        ⟨url, status, reason, .pobj ht none, .pobj hc, .pobj srep, reprStr, cssF, xpathF⟩
        cs xs).headers = [] ∧
      (_response_to_dict
        ⟨url, status, reason, .pobj ht none, .pobj hc, .pobj srep, reprStr, cssF, xpathF⟩
        cs xs).cookies = [] ∧
      (_response_to_dict
        ⟨url, status, reason, .pobj ht none, .pobj hc, .pobj srep, reprStr, cssF, xpathF⟩
        cs xs).body = srep.getD reprStr := by
  intro url reason reprStr status ht hc srep cssF xpathF cs xs
  refine ⟨?_, rfl, ?_⟩
  · cases ht <;> rfl
  · cases srep <;> rfl

/-! ### C4: engine failures surface as 502 -/

/-- C4: on each of the six fetch routes, an engine invocation that raises
with message `e` yields `HTTPException(502, e)`; the handler calls the
engine exactly once (its definition contains a single call) and no other
post-validation failure mode exists in the handlers. -/
theorem engine_failure_502 :
    (∀ (eng : Engine) (req : FetcherGetRequest) (e : String),
      eng req.url (_build_fetcher_kwargs req) = .error e →
      fetcher_get eng req = .httpError 502 e) ∧
    (∀ (eng : Engine) (req : FetcherDataRequest) (e : String),
      eng req.url (_body_kwargs req) = .error e →
      fetcher_post eng req = .httpError 502 e) ∧
    (∀ (eng : Engine) (req : FetcherDataRequest) (e : String),
      eng req.url (_body_kwargs req) = .error e →
      fetcher_put eng req = .httpError 502 e) ∧
    (∀ (eng : Engine) (req : FetcherGetRequest) (e : String),
      eng req.url (_build_fetcher_kwargs req) = .error e →
      fetcher_delete eng req = .httpError 502 e) ∧
    (∀ (eng : Engine) (req : DynamicFetchRequest) (e : String),
      eng req.url (_build_dynamic_kwargs req) = .error e →
      dynamic_fetch eng req = .httpError 502 e) ∧
    (∀ (eng : Engine) (req : StealthyFetchRequest) (e : String),
      eng req.url (_build_stealthy_kwargs req) = .error e →
      stealthy_fetch eng req = .httpError 502 e) := by
  refine ⟨?_, ?_, ?_, ?_, ?_, ?_⟩ <;> intro eng req e h
  · simp [fetcher_get, h]
  · simp [fetcher_post, h]
  · simp [fetcher_put, h]
  · simp [fetcher_delete, h]
  · simp [dynamic_fetch, h]
  · simp [stealthy_fetch, h]

/-- Witness for C4: an engine that always raises `"engine down"` produces
a 502 with that detail on all six routes. -/
theorem engine_failure_502_witness :
    fetcher_get (fun _ _ => .error "engine down") { url := "u" } = .httpError 502 "engine down" ∧
    fetcher_post (fun _ _ => .error "engine down") { url := "u" } = .httpError 502 "engine down" ∧
    fetcher_put (fun _ _ => .error "engine down") { url := "u" } = .httpError 502 "engine down" ∧
    fetcher_delete (fun _ _ => .error "engine down") { url := "u" } = .httpError 502 "engine down" ∧
    dynamic_fetch (fun _ _ => .error "engine down") { url := "u" } = .httpError 502 "engine down" ∧
    stealthy_fetch (fun _ _ => .error "engine down") { url := "u" } = .httpError 502 "engine down" :=
  ⟨engine_failure_502.1 _ _ _ rfl, engine_failure_502.2.1 _ _ _ rfl,
   engine_failure_502.2.2.1 _ _ _ rfl, engine_failure_502.2.2.2.1 _ _ _ rfl,
   engine_failure_502.2.2.2.2.1 _ _ _ rfl, engine_failure_502.2.2.2.2.2 _ _ _ rfl⟩

/-! ### C6: selector fault isolation -/

/-- C6: when the engine fetch succeeds but the selector that gets
evaluated (CSS first, else XPath) raises with message `e`, the route still
returns the 200 branch, with `selected_content` the single descriptive
error string and every other field exactly as the selector-free
normalization produces it. -/
theorem selector_fault_isolation :
    (∀ (eng : Engine) (req : FetcherGetRequest) (resp : EngResponse) (e : String),
      eng req.url (_build_fetcher_kwargs req) = .ok resp →
      truthyStr req.css_selector = true →
      resp.css (req.css_selector.getD "") = .error e →
      fetcher_get eng req =
        .ok { _response_to_dict resp none none with
              selected_content := some ["CSS selector error: " ++ e] }) ∧
    (∀ (eng : Engine) (req : FetcherGetRequest) (resp : EngResponse) (e : String),
      eng req.url (_build_fetcher_kwargs req) = .ok resp →
      truthyStr req.css_selector = false →
      truthyStr req.xpath_selector = true →
      resp.xpath (req.xpath_selector.getD "") = .error e →
      fetcher_get eng req =
        .ok { _response_to_dict resp none none with
              selected_content := some ["XPath selector error: " ++ e] }) := by
  constructor
  · intro eng req resp e hok hcss herr
    simp [fetcher_get, hok, _response_to_dict, selectedOf, hcss, herr]
  · intro eng req resp e hok hcss hxp herr
    simp [fetcher_get, hok, _response_to_dict, selectedOf, hcss, hxp, herr]

/-- Witness for C6 at a concrete request and an engine returning a
response whose selectors raise `"boom"`. -/
theorem selector_fault_isolation_witness :
    truthyStr (some "#x") = true ∧
    fetcher_get (fun _ _ => .ok errResp) { url := "https://example.com", css_selector := some "#x" } =
      .ok { _response_to_dict errResp none none with
            selected_content := some ["CSS selector error: boom"] } ∧
    fetcher_get (fun _ _ => .ok errResp)
        { url := "https://example.com", xpath_selector := some "//p" } =
      .ok { _response_to_dict errResp none none with
            selected_content := some ["XPath selector error: boom"] } :=
  ⟨rfl,
   selector_fault_isolation.1 _ _ _ _ rfl rfl rfl,
   selector_fault_isolation.2 _ _ _ _ rfl rfl rfl rfl⟩

/-! ### C7: CSS takes precedence over XPath -/

/-- C7: with a non-empty CSS selector, the normalized response does not
depend on the XPath argument nor on the XPath capability of the response at
all — the XPath selector is never run; only CSS contributes to
`selected_content`. -/
theorem css_selector_precedence :
    ∀ (resp : EngResponse) (f g : String → Except String (List PyElement))
      (c : String) (x₁ x₂ : Option String),
      c ≠ "" →
      _response_to_dict { resp with xpath := f } (some c) x₁ =
        _response_to_dict { resp with xpath := g } (some c) x₂ := by
  intro resp f g c x₁ x₂ hc
  simp [_response_to_dict, selectedOf, truthyStr, hc]

/-- Witness for C7: a raising XPath capability and a set XPath argument
leave the result identical to an empty-ok XPath capability with no XPath
argument. -/
theorem css_selector_precedence_witness :
    "#x" ≠ "" ∧
    _response_to_dict { errResp with xpath := fun _ => .error "never run" } (some "#x") (some "//p") =
      _response_to_dict { errResp with xpath := fun _ => .ok [] } (some "#x") none :=
  ⟨by decide,
   css_selector_precedence errResp (fun _ => .error "never run") (fun _ => .ok [])
     "#x" (some "//p") none (by decide)⟩

/-! ### C10: empty values versus unset values -/

/-- C10 counterexample: for `wait_selector_state` the schema default is
`"attached"`, so a request that leaves the field UNSET is forwarded
(`wait_selector_state = "attached"` appears in the option map) while a
request that explicitly sets it to the empty string is omitted — an empty
value is NOT treated exactly like an unset field there, refuting the
claim at the concrete input of an all-default `DynamicFetchRequest`
versus the same request with `wait_selector_state` set to `""`. -/
theorem empty_vs_unset_counterexample :
    dictFind (_build_dynamic_kwargs { url := "https://example.com" }) "wait_selector_state" =
      some (.pstr "attached") ∧
    hasKey (_build_dynamic_kwargs
        { url := "https://example.com", wait_selector_state := some "" })
      "wait_selector_state" = false :=
  ⟨rfl, rfl⟩

/-- C10 amended: for the optional fields whose schema default is null —
`proxy`, `impersonate`, `wait_selector`, `locale`, `cdp_url`, `useragent`
(empty string) and `headers`, `cookies`, `params`, `extra_headers` (empty
map) — an explicitly empty value maps exactly like an unset field and is
omitted, and a `css_selector` set to the empty string is treated as
absent so a non-empty `xpath_selector` is evaluated instead.  For
`wait_selector_state`, whose schema default is `"attached"`, an empty
string behaves like an explicit null (omitted), but an UNSET field is
forwarded as `"attached"`: the field appears in the option map exactly
when its value is truthy. -/
theorem empty_value_coalescing :
    ∀ (reqF : FetcherGetRequest) (reqD : DynamicFetchRequest)
      (resp : EngResponse) (x : Option String),
      _build_fetcher_kwargs { reqF with proxy := some "" } =
        _build_fetcher_kwargs { reqF with proxy := none } ∧
      _build_fetcher_kwargs { reqF with impersonate := some "" } =
        _build_fetcher_kwargs { reqF with impersonate := none } ∧
      _build_fetcher_kwargs { reqF with headers := some [] } =
        _build_fetcher_kwargs { reqF with headers := none } ∧
      _build_fetcher_kwargs { reqF with cookies := some [] } =
        _build_fetcher_kwargs { reqF with cookies := none } ∧
      _build_fetcher_kwargs { reqF with params := some [] } =
        _build_fetcher_kwargs { reqF with params := none } ∧
      _build_dynamic_kwargs { reqD with wait_selector := some "" } =
        _build_dynamic_kwargs { reqD with wait_selector := none } ∧
      _build_dynamic_kwargs { reqD with wait_selector_state := some "" } =
        _build_dynamic_kwargs { reqD with wait_selector_state := none } ∧
      _build_dynamic_kwargs { reqD with locale := some "" } =
        _build_dynamic_kwargs { reqD with locale := none } ∧
      _build_dynamic_kwargs { reqD with cdp_url := some "" } =
        _build_dynamic_kwargs { reqD with cdp_url := none } ∧
      _build_dynamic_kwargs { reqD with proxy := some "" } =
        _build_dynamic_kwargs { reqD with proxy := none } ∧
      _build_dynamic_kwargs { reqD with useragent := some "" } =
        _build_dynamic_kwargs { reqD with useragent := none } ∧
      _build_dynamic_kwargs { reqD with extra_headers := some [] } =
        _build_dynamic_kwargs { reqD with extra_headers := none } ∧
      _response_to_dict resp (some "") x = _response_to_dict resp none x ∧
      hasKey (_build_dynamic_kwargs reqD) "wait_selector_state" =
        truthyStr reqD.wait_selector_state := by
  intro reqF reqD resp x
  refine ⟨rfl, rfl, rfl, rfl, rfl, rfl, rfl, rfl, rfl, rfl, rfl, rfl, rfl, ?_⟩
  simp [_build_dynamic_kwargs, apply_ite (fun d => hasKey d "wait_selector_state")]

end Scrapling
